import Mathlib

/-!
Verification of the actionSHARK repository: a shallow embedding of the
GitHub-Actions fetcher (`actionSHARK/github.py` and its near-duplicate
`actionshark/github.py`) and the Mongo mapping layer (`actionshark/mongo.py`),
together with theorems settling the specification claims about pagination,
rate-limit backoff, orchestration order, and the per-resource converters.
-/

set_option maxRecDepth 4000

/-! ## Python value model

JSON payloads and Python runtime values handled by the converters are
embedded as a single inductive of dynamic values. `jNull` stands for
Python `None` (also the result of a missing `dict.get`). -/

/-- Dynamic Python/JSON value as handled by `mongo.py` converters. -/
inductive JVal where
  | jNull
  | jInt (n : Int)
  | jStr (s : String)
  | jBool (b : Bool)
  | jObj (fields : List (String × JVal))
  | jList (elems : List JVal)
  | jDate (year month day hour minute second microsecond : Nat) (tzMinutes : Int)
deriving Repr

/-- Python exceptions that the embedded code can raise. -/
inductive PyErr where
  | typeError
  | valueError
  | keyError
  | attributeError
  | doesNotExist
deriving DecidableEq, Repr

/-- Python truthiness (`if not value`) for the embedded values. -/
def truthy : JVal → Bool
  | .jNull => false
  | .jInt n => n != 0
  | .jStr s => s != ""
  | .jBool b => b
  | .jObj fields => !fields.isEmpty
  | .jList elems => !elems.isEmpty
  | .jDate _ _ _ _ _ _ _ _ => true

/-- Python `int(x)` coercion: ints pass through, bools become 0/1, numeric
strings parse, `None` and everything else raise `TypeError`/`ValueError`. -/
def pyInt : JVal → Except PyErr Int
  | .jInt n => .ok n
  | .jBool b => .ok (if b then 1 else 0)
  | .jStr s =>
    match s.toInt? with
    | some n => .ok n
    | none => .error .valueError
  | _ => .error .typeError

/-- Python `d.get(k)`: returns the value or `None` when the key is missing;
raises `AttributeError` when the receiver is not a dict. -/
def pyGet : JVal → String → Except PyErr JVal
  | .jObj fields, k => .ok (((fields.find? (fun p => p.1 == k)).map (fun p => p.2)).getD .jNull)
  | _, _ => .error .attributeError

/-- Python `d[k]` subscription: raises `KeyError` when the key is missing and
`TypeError` when the receiver is not a dict. -/
def pySub : JVal → String → Except PyErr JVal
  | .jObj fields, k =>
    match fields.find? (fun p => p.1 == k) with
    | some p => .ok p.2
    | none => .error .keyError
  | _, _ => .error .typeError

/-! ## datetime.strptime for the two fixed formats of `mongo.py`

`__parse_date` uses exactly the formats `%Y-%m-%dT%H:%M:%S.%f%z` and
`%Y-%m-%dT%H:%M:%S%z`; the parser below embeds those two formats (digit
counts and literal separators as in CPython's `_strptime` regexes; the
post-hoc calendar validation done by the `datetime` constructor is elided). -/

/-- Value of a digit character, `none` for a non-digit. -/
def digitVal (c : Char) : Option Nat :=
  if c.isDigit then some (c.toNat - 48) else none

/-- Read exactly `n` digits, accumulating their value. -/
def readExact : Nat → Nat → List Char → Option (Nat × List Char)
  | 0, acc, cs => some (acc, cs)
  | n + 1, acc, c :: cs =>
    match digitVal c with
    | some d => readExact n (acc * 10 + d) cs
    | none => none
  | _ + 1, _, [] => none

/-- Read one or two digits (two preferred), as CPython does for `%m`, `%d`,
`%H`, `%M`, `%S`. -/
def read12 : List Char → Option (Nat × List Char)
  | [] => none
  | c :: cs =>
    match digitVal c with
    | none => none
    | some d =>
      match cs with
      | c2 :: cs2 =>
        match digitVal c2 with
        | some d2 => some (d * 10 + d2, cs2)
        | none => some (d, cs)
      | [] => some (d, [])

/-- Expect a literal character. -/
def readLit (c : Char) : List Char → Option (List Char)
  | c2 :: cs => if c2 = c then some cs else none
  | [] => none

/-- Read up to `n` leading digits, returning value, count read and the rest. -/
def readDigitsAcc : Nat → Nat → Nat → List Char → Nat × Nat × List Char
  | 0, acc, k, cs => (acc, k, cs)
  | n + 1, acc, k, cs =>
    match cs with
    | c :: cs2 =>
      match digitVal c with
      | some d => readDigitsAcc n (acc * 10 + d) (k + 1) cs2
      | none => (acc, k, cs)
    | [] => (acc, k, cs)

/-- Fractional seconds for `%f`: one to six digits, right-padded to
microseconds as CPython does. -/
def readFrac (cs : List Char) : Option (Nat × List Char) :=
  let r := readDigitsAcc 6 0 0 cs
  if r.2.1 = 0 then none else some (r.1 * 10 ^ (6 - r.2.1), r.2.2)

/-- UTC-offset for `%z`: `Z`, or a sign followed by `HH[:]MM`. -/
def readTz : List Char → Option (Int × List Char)
  | 'Z' :: cs => some (0, cs)
  | '+' :: cs =>
    match readExact 2 0 cs with
    | some (h, cs2) =>
      let cs3 := match cs2 with
        | ':' :: cs4 => cs4
        | _ => cs2
      match readExact 2 0 cs3 with
      | some (m, cs5) => if m ≤ 59 then some ((h * 60 + m : Nat), cs5) else none
      | none => none
    | none => none
  | '-' :: cs =>
    match readExact 2 0 cs with
    | some (h, cs2) =>
      let cs3 := match cs2 with
        | ':' :: cs4 => cs4
        | _ => cs2
      match readExact 2 0 cs3 with
      | some (m, cs5) => if m ≤ 59 then some (-((h * 60 + m : Nat) : Int), cs5) else none
      | none => none
    | none => none
  | _ => none

/-- `datetime.strptime` restricted to the two formats used by
`Mongo.__parse_date`; `withFrac` selects `%Y-%m-%dT%H:%M:%S.%f%z` over
`%Y-%m-%dT%H:%M:%S%z`. Produces a `jDate` value. -/
def strptime2 (withFrac : Bool) (s : String) : Option JVal :=
  match readExact 4 0 s.data with
  | none => none
  | some (y, cs1) =>
  match readLit '-' cs1 with
  | none => none
  | some cs2 =>
  match read12 cs2 with
  | none => none
  | some (mo, cs3) =>
  if mo < 1 ∨ 12 < mo then none else
  match readLit '-' cs3 with
  | none => none
  | some cs4 =>
  match read12 cs4 with
  | none => none
  | some (d, cs5) =>
  if d < 1 ∨ 31 < d then none else
  match readLit 'T' cs5 with
  | none => none
  | some cs6 =>
  match read12 cs6 with
  | none => none
  | some (h, cs7) =>
  if 23 < h then none else
  match readLit ':' cs7 with
  | none => none
  | some cs8 =>
  match read12 cs8 with
  | none => none
  | some (mi, cs9) =>
  if 59 < mi then none else
  match readLit ':' cs9 with
  | none => none
  | some cs10 =>
  match read12 cs10 with
  | none => none
  | some (sec, cs11) =>
  if 61 < sec then none else
  match (if withFrac then
           match readLit '.' cs11 with
           | none => none
           | some cs12 => readFrac cs12
         else some (0, cs11)) with
  | none => none
  | some (us, cs13) =>
  match readTz cs13 with
  | none => none
  | some (off, cs14) =>
  if cs14.isEmpty then some (.jDate y mo d h mi sec us off) else none

/-- `Mongo.__parse_date`: falsy input yields `None`; a string is parsed with
one of the two fixed formats (`is_millisecond` choosing the `%f` variant);
a parse failure raises `ValueError`, a non-string raises `TypeError`. -/
def parseDate (value : JVal) (isMillisecond : Bool) : Except PyErr JVal :=
  if truthy value = false then .ok .jNull
  else
    match value with
    | .jStr s =>
      match strptime2 isMillisecond s with
      | some d => .ok d
      | none => .error .valueError
    | _ => .error .typeError

/-! ## Mongo records and store state (`actionshark/mongo.py`)

The mongoengine `Document` classes become plain structures; internal
object ids (`.id` of a saved document, `VCSSystem.project_id`) are modelled
as integers assigned in saving order. Converter attribute assignments are
embedded in source order as explicit `Except.bind` chains so that the first
raised exception is the one the source would raise. -/

/-- Stored `Workflow` document (`class Workflow` in `mongo.py`). -/
structure WorkflowRec where
  workflow_id : Int
  name : JVal
  path : JVal
  state : JVal
  created_at : JVal
  updated_at : JVal
  repo_id : Int
  repo_url : Option String
deriving Repr

/-- Embedded `RunPullRequest` document. -/
structure RunPullRequestRec where
  run_pull_request_id : JVal
  number : JVal
  head_id : JVal
  head_ref : JVal
  head_name : JVal
  base_id : JVal
  base_ref : JVal
  base_name : JVal
deriving Repr

/-- Stored `Run` document. -/
structure RunRec where
  run_id : Int
  name : JVal
  run_number : Int
  event : JVal
  status : JVal
  conclusion : JVal
  workflow_id : Int
  workflow_id_int : Int
  pull_requests : List (Option RunPullRequestRec)
  created_at : JVal
  updated_at : JVal
  run_attempt : Int
  run_started_at : JVal
  head_commit : JVal
  head_repository : JVal
deriving Repr

/-- Embedded `JobStep` document. -/
structure JobStepRec where
  name : JVal
  status : JVal
  conclusion : JVal
  number : JVal
  started_at : JVal
  completed_at : JVal
deriving Repr

/-- Stored `Job` document. -/
structure JobRec where
  job_id : Int
  name : JVal
  run_id : Int
  run_attempt : Int
  status : JVal
  conclusion : JVal
  started_at : JVal
  completed_at : JVal
  steps : List (Option JobStepRec)
  runner_id : JVal
  runner_name : JVal
  runner_group_id : JVal
  runner_group_name : JVal
deriving Repr

/-- Stored `Artifact` document. -/
structure ArtifactRec where
  artifact_id : Int
  name : JVal
  size_in_bytes : Int
  archive_download_url : JVal
  expired : Bool
  created_at : JVal
  updated_at : JVal
  expires_at : JVal
deriving Repr

/-- Per-instance configuration of the `Mongo` class (its `repo_url` field). -/
structure MongoCfg where
  repoUrl : Option String
deriving Repr

/-- Queryable store contents: `VCSSystem` records by url, and the saved
`Workflow`/`Run` documents by their numeric platform id, each paired with
the internal object id; `nextOid` is the next object id to assign. -/
structure MongoState where
  vcs : List (String × Int)
  workflows : List (Int × Int)
  runs : List (Int × Int)
  nextOid : Int
deriving Repr

/-- `Mongo.__workflow_object_id`: `Workflow.objects.get(workflow_id=v).id`;
raises `DoesNotExist` when no stored workflow matches. -/
def workflowObjectId (st : MongoState) (v : Int) : Except PyErr Int :=
  match st.workflows.find? (fun p => p.1 == v) with
  | some p => .ok p.2
  | none => .error .doesNotExist

/-- `Mongo.__run_object_id`: `Run.objects.get(run_id=v).id`; raises
`DoesNotExist` when no stored run matches. -/
def runObjectId (st : MongoState) (v : Int) : Except PyErr Int :=
  match st.runs.find? (fun p => p.1 == v) with
  | some p => .ok p.2
  | none => .error .doesNotExist

/-- `Mongo.__repo_object_id`: `VCSSystem.objects.get(url=v).project_id`;
raises `DoesNotExist` when no VCS system matches (in particular when the
configured `repo_url` is `None`). -/
def repoObjectId (st : MongoState) (v : Option String) : Except PyErr Int :=
  match v with
  | none => .error .doesNotExist
  | some u =>
    match st.vcs.find? (fun p => p.1 == u) with
    | some p => .ok p.2
    | none => .error .doesNotExist

/-- Map a converter over a list, propagating the first exception, as the
list comprehension in `__create_embedded_docs` does. -/
def mapExcept (f : JVal → Except PyErr (Option α)) : List JVal → Except PyErr (List (Option α))
  | [] => .ok []
  | x :: xs =>
    Except.bind (f x) (fun y =>
    Except.bind (mapExcept f xs) (fun ys =>
    .ok (y :: ys)))

/-- `Mongo.__create_embedded_docs`: a falsy sub-document value yields `[]`;
otherwise the per-element converter is mapped over the list (iterating a
non-list raises `TypeError`). The string dispatch over the two known
sub-operations is specialised into the converter argument, since both call
sites pass a literal key of the dispatch table. -/
def createEmbeddedDocs (f : JVal → Except PyErr (Option α)) (subDocuments : JVal) :
    Except PyErr (List (Option α)) :=
  if truthy subDocuments = false then .ok []
  else
    match subDocuments with
    | .jList ds => mapExcept f ds
    | _ => .error .typeError

/-- `Mongo.__create_workflow`, field assignments in source order. -/
def createWorkflow (cfg : MongoCfg) (st : MongoState) (obj : JVal) :
    Except PyErr (Option WorkflowRec) :=
  if truthy obj = false then .ok none
  else
    Except.bind (pyGet obj "id") (fun idv =>
    Except.bind (pyInt idv) (fun workflow_id =>
    Except.bind (pyGet obj "name") (fun name =>
    Except.bind (pyGet obj "path") (fun path =>
    Except.bind (pyGet obj "state") (fun state =>
    Except.bind (pyGet obj "created_at") (fun cav =>
    Except.bind (parseDate cav true) (fun created_at =>
    Except.bind (pyGet obj "updated_at") (fun uav =>
    Except.bind (parseDate uav true) (fun updated_at =>
    Except.bind (repoObjectId st cfg.repoUrl) (fun repo_id =>
    .ok (some
      { workflow_id := workflow_id, name := name, path := path, state := state,
        created_at := created_at, updated_at := updated_at,
        repo_id := repo_id, repo_url := cfg.repoUrl })))))))))))

/-- `Mongo.__create_run_pull_request`, field assignments in source order
(`obj["head"]`/`obj["base"]` subscriptions can raise `KeyError`). -/
def createRunPullRequest (obj : JVal) : Except PyErr (Option RunPullRequestRec) :=
  if truthy obj = false then .ok none
  else
    Except.bind (pyGet obj "id") (fun run_pull_request_id =>
    Except.bind (pyGet obj "number") (fun number =>
    Except.bind (pySub obj "head") (fun head =>
    Except.bind (pyGet head "ref") (fun head_ref =>
    Except.bind (pySub head "repo") (fun headRepo =>
    Except.bind (pyGet headRepo "id") (fun head_id =>
    Except.bind (pyGet headRepo "name") (fun head_name =>
    Except.bind (pySub obj "base") (fun base =>
    Except.bind (pyGet base "ref") (fun base_ref =>
    Except.bind (pySub base "repo") (fun baseRepo =>
    Except.bind (pyGet baseRepo "id") (fun base_id =>
    Except.bind (pyGet baseRepo "name") (fun base_name =>
    .ok (some
      { run_pull_request_id := run_pull_request_id, number := number,
        head_id := head_id, head_ref := head_ref, head_name := head_name,
        base_id := base_id, base_ref := base_ref, base_name := base_name })))))))))))))

/-- `Mongo.__create_run`, field assignments in source order; note that
`run_started_at`, `head_commit` and `head_repository` are copied raw. -/
def createRun (st : MongoState) (obj : JVal) : Except PyErr (Option RunRec) :=
  if truthy obj = false then .ok none
  else
    Except.bind (pyGet obj "id") (fun idv =>
    Except.bind (pyInt idv) (fun run_id =>
    Except.bind (pyGet obj "name") (fun name =>
    Except.bind (pyGet obj "run_number") (fun rnv =>
    Except.bind (pyInt rnv) (fun run_number =>
    Except.bind (pyGet obj "event") (fun event =>
    Except.bind (pyGet obj "status") (fun status =>
    Except.bind (pyGet obj "conclusion") (fun conclusion =>
    Except.bind (pyGet obj "workflow_id") (fun wfv =>
    Except.bind (pyInt wfv) (fun wfIdInt =>
    Except.bind (workflowObjectId st wfIdInt) (fun workflow_id =>
    Except.bind (pyGet obj "pull_requests") (fun prv =>
    Except.bind (createEmbeddedDocs createRunPullRequest prv) (fun pull_requests =>
    Except.bind (pyGet obj "created_at") (fun cav =>
    Except.bind (parseDate cav false) (fun created_at =>
    Except.bind (pyGet obj "updated_at") (fun uav =>
    Except.bind (parseDate uav false) (fun updated_at =>
    Except.bind (pyGet obj "run_attempt") (fun rav =>
    Except.bind (pyInt rav) (fun run_attempt =>
    Except.bind (pyGet obj "run_started_at") (fun run_started_at =>
    Except.bind (pyGet obj "head_commit") (fun head_commit =>
    Except.bind (pyGet obj "head_repository") (fun head_repository =>
    .ok (some
      { run_id := run_id, name := name, run_number := run_number, event := event,
        status := status, conclusion := conclusion, workflow_id := workflow_id,
        workflow_id_int := wfIdInt, pull_requests := pull_requests,
        created_at := created_at, updated_at := updated_at,
        run_attempt := run_attempt, run_started_at := run_started_at,
        head_commit := head_commit, head_repository := head_repository })))))))))))))))))))))))

/-- `Mongo.__create_job_step`, field assignments in source order. The
`number` assignment embeds the source text
`int(obj.get("number")) if not obj.get("number") else None` verbatim: the
condition is inverted, so a truthy `number` is discarded and a falsy one is
passed to `int` (raising `TypeError` on `None`). -/
def createJobStep (obj : JVal) : Except PyErr (Option JobStepRec) :=
  if truthy obj = false then .ok none
  else
    Except.bind (pyGet obj "name") (fun name =>
    Except.bind (pyGet obj "status") (fun status =>
    Except.bind (pyGet obj "conclusion") (fun conclusion =>
    Except.bind (pyGet obj "number") (fun numv =>
    Except.bind (if truthy numv = false
                 then Except.map JVal.jInt (pyInt numv)
                 else .ok .jNull) (fun number =>
    Except.bind (pyGet obj "started_at") (fun sav =>
    Except.bind (parseDate sav true) (fun started_at =>
    Except.bind (pyGet obj "completed_at") (fun cav =>
    Except.bind (parseDate cav true) (fun completed_at =>
    .ok (some
      { name := name, status := status, conclusion := conclusion,
        number := number, started_at := started_at,
        completed_at := completed_at }))))))))))

/-- `Mongo.__create_job`, field assignments in source order. The two runner
fields embed `int(x) if x else None` (the non-inverted guard). -/
def createJob (st : MongoState) (obj : JVal) : Except PyErr (Option JobRec) :=
  if truthy obj = false then .ok none
  else
    Except.bind (pyGet obj "id") (fun idv =>
    Except.bind (pyInt idv) (fun job_id =>
    Except.bind (pyGet obj "name") (fun name =>
    Except.bind (pyGet obj "run_id") (fun rv =>
    Except.bind (pyInt rv) (fun runIdInt =>
    Except.bind (runObjectId st runIdInt) (fun run_id =>
    Except.bind (pyGet obj "run_attempt") (fun rav =>
    Except.bind (pyInt rav) (fun run_attempt =>
    Except.bind (pyGet obj "status") (fun status =>
    Except.bind (pyGet obj "conclusion") (fun conclusion =>
    Except.bind (pyGet obj "started_at") (fun sav =>
    Except.bind (parseDate sav false) (fun started_at =>
    Except.bind (pyGet obj "completed_at") (fun cav =>
    Except.bind (parseDate cav false) (fun completed_at =>
    Except.bind (pyGet obj "steps") (fun stepsv =>
    Except.bind (createEmbeddedDocs createJobStep stepsv) (fun steps =>
    Except.bind (pyGet obj "runner_id") (fun riv =>
    Except.bind (if truthy riv then Except.map JVal.jInt (pyInt riv) else .ok .jNull)
      (fun runner_id =>
    Except.bind (pyGet obj "runner_name") (fun runner_name =>
    Except.bind (pyGet obj "runner_group_id") (fun rgv =>
    Except.bind (if truthy rgv then Except.map JVal.jInt (pyInt rgv) else .ok .jNull)
      (fun runner_group_id =>
    Except.bind (pyGet obj "runner_group_name") (fun runner_group_name =>
    .ok (some
      { job_id := job_id, name := name, run_id := run_id,
        run_attempt := run_attempt, status := status, conclusion := conclusion,
        started_at := started_at, completed_at := completed_at, steps := steps,
        runner_id := runner_id, runner_name := runner_name,
        runner_group_id := runner_group_id,
        runner_group_name := runner_group_name })))))))))))))))))))))))

/-- `Mongo.__create_artifact`, field assignments in source order. -/
def createArtifact (obj : JVal) : Except PyErr (Option ArtifactRec) :=
  if truthy obj = false then .ok none
  else
    Except.bind (pyGet obj "id") (fun idv =>
    Except.bind (pyInt idv) (fun artifact_id =>
    Except.bind (pyGet obj "name") (fun name =>
    Except.bind (pyGet obj "size_in_bytes") (fun sv =>
    Except.bind (pyInt sv) (fun size_in_bytes =>
    Except.bind (pyGet obj "archive_download_url") (fun archive_download_url =>
    Except.bind (pyGet obj "expired") (fun ev =>
    Except.bind (pyGet obj "created_at") (fun cav =>
    Except.bind (parseDate cav false) (fun created_at =>
    Except.bind (pyGet obj "updated_at") (fun uav =>
    Except.bind (parseDate uav false) (fun updated_at =>
    Except.bind (pyGet obj "expires_at") (fun xav =>
    Except.bind (parseDate xav false) (fun expires_at =>
    .ok (some
      { artifact_id := artifact_id, name := name,
        size_in_bytes := size_in_bytes,
        archive_download_url := archive_download_url, expired := truthy ev,
        created_at := created_at, updated_at := updated_at,
        expires_at := expires_at }))))))))))))))

/-- A converted document of any resource kind (value of `self.__operations`
dispatch in `save_documents`). -/
inductive AnyRec where
  | wf (w : WorkflowRec)
  | run (r : RunRec)
  | job (j : JobRec)
  | artifact (a : ArtifactRec)
deriving Repr

/-- Keys of the `Mongo.__operations` dispatch table. -/
def opKeys : List String := ["workflow", "run", "job", "artifact"]

/-- Dispatch of `self.__operations[action]` applied to one raw document. -/
def convertFor (action : String) (cfg : MongoCfg) (st : MongoState) (d : JVal) :
    Except PyErr (Option AnyRec) :=
  match action with
  | "workflow" => Except.map (Option.map AnyRec.wf) (createWorkflow cfg st d)
  | "run" => Except.map (Option.map AnyRec.run) (createRun st d)
  | "job" => Except.map (Option.map AnyRec.job) (createJob st d)
  | "artifact" => Except.map (Option.map AnyRec.artifact) (createArtifact d)
  | _ => .error .keyError

/-- `document.save()` of mongoengine: appends the record to its collection
and assigns the next internal object id; only the workflow and run
collections are ever queried back. -/
def persist (st : MongoState) : AnyRec → MongoState
  | .wf w =>
    { st with workflows := st.workflows ++ [(w.workflow_id, st.nextOid)],
              nextOid := st.nextOid + 1 }
  | .run r =>
    { st with runs := st.runs ++ [(r.run_id, st.nextOid)],
              nextOid := st.nextOid + 1 }
  | .job _ => { st with nextOid := st.nextOid + 1 }
  | .artifact _ => { st with nextOid := st.nextOid + 1 }

/-- Whether `func(document).save()` raises: either the converter raised, or
it returned `None` (a falsy document) and `None.save()` raises
`AttributeError`; both land in the `except` branch of `save_documents`. -/
def isFailure : Except PyErr (Option AnyRec) → Bool
  | .ok (some _) => false
  | _ => true

/-- Outcome of one item of a `save_documents` batch. -/
inductive ItemOutcome where
  | saved (rec : AnyRec)
  | failedLogged (idVal : JVal)
deriving Repr

/-- The `for document in documents` loop of `save_documents`: each item is
converted and saved; on any exception the handler formats
`document["id"]` into the log message — if that subscription itself
raises, the exception propagates and the loop aborts (third component). -/
def saveLoop (cfg : MongoCfg) (action : String) :
    MongoState → List JVal → List ItemOutcome × MongoState × Option PyErr
  | st, [] => ([], st, none)
  | st, d :: ds =>
    match convertFor action cfg st d with
    | .ok (some rec) =>
      let r := saveLoop cfg action (persist st rec) ds
      (.saved rec :: r.1, r.2)
    | _ =>
      match pySub d "id" with
      | .ok idVal =>
        let r := saveLoop cfg action st ds
        (.failedLogged idVal :: r.1, r.2)
      | .error e => ([], st, some e)

/-- `Mongo.save_documents`: falsy `documents` or falsy `action` is a logged
no-op; an `action` outside the dispatch table drops the whole batch;
otherwise the per-item loop runs (iterating a non-list raises). -/
def saveDocuments (cfg : MongoCfg) (st : MongoState) (documents : JVal)
    (action : Option String) : List ItemOutcome × MongoState × Option PyErr :=
  match action with
  | none => ([], st, none)
  | some a =>
    if truthy documents = false ∨ a = "" then ([], st, none)
    else if a ∈ opKeys then
      match documents with
      | .jList ds => saveLoop cfg a st ds
      | _ => ([], st, some .typeError)
    else ([], st, none)

/-! ## The pagination loop (`GitHub.paginating`)

Both module variants are embedded over an environment script: one HTTP
response per loop iteration. The trace records every request (with the full
URL string the source builds), every sink call, every sleep and every
abort. Items are abstract (`Nat` payloads); the JSON envelope/checker
extraction is part of the environment, which supplies the extracted item
list directly. Rate-limit header instants are epoch seconds; Python's
`timedelta.seconds` component of a difference of `d` seconds is
`d mod 86400` (floor division semantics), embedded as `Int.emod d 86400`. -/

/-- Observable event of a pagination trace. -/
inductive PgEvent where
  | request (url : String)
  | sleep (seconds : Int)
  | save (items : List Nat) (action : String)
  | exit (code : Nat)
  | crash (msg : String)
deriving DecidableEq, Repr

/-- One scripted HTTP response: a 200 with the extracted item list, a 403
with the reset-time and current-time header instants, or another status. -/
inductive Resp where
  | ok (items : List Nat)
  | limited (reset now : Int)
  | err (code : Nat)
deriving DecidableEq, Repr

/-- The page query fragment the loop appends: Python `f"&page={self.page}"`. -/
def pageFragment (page : Nat) : String := "&page=" ++ toString page

/-- Python string slice `s[:-k]` for `k > 0`: drop the last `k` characters. -/
def pyDropRight (s : String) (k : Nat) : String :=
  String.mk (s.data.take (s.data.length - k))

/-- `GitHub.paginating` of `actionSHARK/github.py`. Per iteration: append
the page fragment to the url and request it; on an unknown status log and
`sys.exit(1)`; on a 403 sleep for `(reset - now).seconds` and `continue`
without stripping the appended fragment; on a 200 stop on an empty item
list, otherwise save the items, strip exactly one page fragment, increment
the page, and stop if the item count is below `per_page`. -/
def paginatingA (action : String) (perPage : Nat) :
    String → Nat → List Resp → List PgEvent
  | _, _, [] => []
  | url, page, r :: rest =>
    let url1 := url ++ pageFragment page
    PgEvent.request url1 ::
    match r with
    | .err _ => [PgEvent.exit 1]
    | .limited reset now =>
      PgEvent.sleep (Int.emod (reset - now) 86400) ::
        paginatingA action perPage url1 page rest
    | .ok items =>
      if items.length = 0 then []
      else
        PgEvent.save items action ::
        if items.length < perPage then []
        else
          paginatingA action perPage
            (pyDropRight url1 (pageFragment page).length) (page + 1) rest

/-- `GitHub.paginating` of `actionshark/github.py`. Identical to the other
variant except in the 403 branch: the sleep duration is
`(current_time - reset_time).seconds` (operands reversed), and after
sleeping the code calls `self.get_limit()`, a method the class does not
define, so the process dies with `AttributeError` instead of retrying. -/
def paginatingB (action : String) (perPage : Nat) :
    String → Nat → List Resp → List PgEvent
  | _, _, [] => []
  | url, page, r :: rest =>
    let url1 := url ++ pageFragment page
    PgEvent.request url1 ::
    match r with
    | .err _ => [PgEvent.exit 1]
    | .limited reset now =>
      [PgEvent.sleep (Int.emod (now - reset) 86400), PgEvent.crash "AttributeError"]
    | .ok items =>
      if items.length = 0 then []
      else
        PgEvent.save items action ::
        if items.length < perPage then []
        else
          paginatingB action perPage
            (pyDropRight url1 (pageFragment page).length) (page + 1) rest

/-! ## Orchestration (`GitHub.run` and the `get_*` methods)

The `run` traces record the authentication request, one `paginate` event
per `self.paginating(...)` call (carrying the URL the `get_*` method builds
and the checker key), every `logger.error` call, and process exits. URLs
are built by string formatting of the `actions_url` templates. -/

/-- Observable event of an orchestration trace. -/
inductive RunEvent where
  | request (url : String)
  | paginate (url : String) (checker : String)
  | logError
  | exit (code : Nat)
  | crash (msg : String)
deriving DecidableEq, Repr

/-- `GitHub.api_url`. -/
def apiUrl : String := "https://api.github.com/"

/-- The current-user endpoint requested by `authenticate_user`. -/
def userUrl : String := apiUrl ++ "user"

/-- Workflow listing URL (template `actions_url["workflow"]`, variant A;
identical template in variant B under the key `workflows`). -/
def workflowsUrl (o r : String) (pp : Nat) : String :=
  apiUrl ++ "repos/" ++ o ++ "/" ++ r ++ "/actions/workflows?per_page=" ++ toString pp

/-- Run listing URL of variant A. -/
def runsUrlA (o r : String) (pp : Nat) : String :=
  apiUrl ++ "repos/" ++ o ++ "/" ++ r ++ "/actions/runs?per_page=" ++ toString pp

/-- Run listing URL of variant B (`get_runs` appends a fixed query flag). -/
def runsUrlB (o r : String) (pp : Nat) : String :=
  apiUrl ++ "repos/" ++ o ++ "/" ++ r ++ "/actions/runs?per_page=" ++ toString pp
    ++ "&exclude_pull_requests=False"

/-- Per-run job listing URL (same template in both variants). -/
def jobsUrl (o r : String) (pp : Nat) (runId : Int) : String :=
  apiUrl ++ "repos/" ++ o ++ "/" ++ r ++ "/actions/runs/" ++ toString runId
    ++ "/jobs?per_page=" ++ toString pp

/-- Repository-level artifact URL of variant A. -/
def artifactsUrlA (o r : String) (pp : Nat) : String :=
  apiUrl ++ "repos/" ++ o ++ "/" ++ r ++ "/actions/artifacts?per_page=" ++ toString pp

/-- Per-run artifact URL of variant B. -/
def artifactsUrlB (o r : String) (pp : Nat) (runId : Int) : String :=
  apiUrl ++ "repos/" ++ o ++ "/" ++ r ++ "/actions/runs/" ++ toString runId
    ++ "/artifacts?per_page=" ++ toString pp

/-- `get_workflows` of variant A: one paginating call with checker
`"workflows"`. -/
def fetchWorkflowsA (o r : String) (pp : Nat) : List RunEvent :=
  [.paginate (workflowsUrl o r pp) "workflows"]

/-- `get_runs` of variant A: checker `"workflow_runs"`. -/
def fetchRunsA (o r : String) (pp : Nat) : List RunEvent :=
  [.paginate (runsUrlA o r pp) "workflow_runs"]

/-- `get_artifacts` of variant A: repository-level, checker `"artifacts"`. -/
def fetchArtifactsA (o r : String) (pp : Nat) : List RunEvent :=
  [.paginate (artifactsUrlA o r pp) "artifacts"]

/-- The `for run in run_ids: self.get_jobs(run)` loop of variant A's `run`;
`get_jobs` logs and exits on a falsy (zero) run id, which ends the whole
process. -/
def jobLoopA (o r : String) (pp : Nat) : List Int → List RunEvent
  | [] => []
  | runId :: rest =>
    if runId = 0 then [.logError, .exit 1]
    else .paginate (jobsUrl o r pp runId) "jobs" :: jobLoopA o r pp rest

/-- Body of variant A's `run` after the token check: workflows, artifacts,
runs, then either the two error logs and `sys.exit(1)` when no runs object
was passed, or the per-run job loop over the collected run ids. -/
def runBodyA (o r : String) (pp : Nat) (runsObj : Option (List Int)) : List RunEvent :=
  fetchWorkflowsA o r pp ++ fetchArtifactsA o r pp ++ fetchRunsA o r pp ++
    (match runsObj with
     | none => [.logError, .logError, .exit 1]
     | some ids => jobLoopA o r pp ids)

/-- `GitHub.run` of `actionSHARK/github.py`. With a configured token it
first calls `authenticate_user` (one GET to the user endpoint; a 401 makes
it log four errors and return `False`, upon which `run` exits); otherwise
or afterwards the fetch phases follow. -/
def runA (hasToken auth401 : Bool) (o r : String) (pp : Nat)
    (runsObj : Option (List Int)) : List RunEvent :=
  if hasToken then
    if auth401 then
      [.request userUrl, .logError, .logError, .logError, .logError, .exit 1]
    else .request userUrl :: runBodyA o r pp runsObj
  else runBodyA o r pp runsObj

/-- A per-run fetch loop of variant B's `run` (`get_jobs`/`get_artifacts`
both log one error and exit on a falsy run id); the Boolean reports whether
the loop exited the process. -/
def runLoopB (mk : Int → RunEvent) : List Int → List RunEvent × Bool
  | [] => ([], false)
  | runId :: rest =>
    if runId = 0 then ([.logError, .exit 1], true)
    else
      let p := runLoopB mk rest
      (mk runId :: p.1, p.2)

/-- Body of variant B's `run` after the token check: workflows then runs;
only when a runs object is passed, the per-run job loop followed (if it did
not exit) by the per-run artifact loop; with no runs object it simply
returns, with no error and no exit. -/
def runBodyB (o r : String) (pp : Nat) (runsObj : Option (List Int)) : List RunEvent :=
  [RunEvent.paginate (workflowsUrl o r pp) "workflows"] ++
  [RunEvent.paginate (runsUrlB o r pp) "workflow_runs"] ++
    (match runsObj with
     | none => []
     | some ids =>
       let jl := runLoopB (fun runId => .paginate (jobsUrl o r pp runId) "jobs") ids
       jl.1 ++
         (if jl.2 then []
          else (runLoopB (fun runId => .paginate (artifactsUrlB o r pp runId) "artifacts")
                  ids).1))

/-- `GitHub.run` of `actionshark/github.py`. With a configured token it
calls `self.authenticate_user(verbose=True)`, but that method accepts no
`verbose` argument, so the call raises `TypeError` and the process dies
before any request. -/
def runB (hasToken : Bool) (o r : String) (pp : Nat)
    (runsObj : Option (List Int)) : List RunEvent :=
  if hasToken then [.crash "TypeError"]
  else runBodyB o r pp runsObj

/-- Recogniser for the authentication request event. -/
def isUserReq : RunEvent → Bool
  | .request u => u == userUrl
  | _ => false

/-! ## Class-level request headers (`GitHub.__headers`)

`__headers` is a class attribute; `self.__headers["Authorization"] = ...`
in `__init__` mutates that shared dict in place, so the assignment is
visible to every instance, past and future. The dict is embedded as an
insertion-ordered association list with in-place update. -/

/-- Python `d[k] = v` on an insertion-ordered dict. -/
def dictSet : List (String × String) → String → String → List (String × String)
  | [], k, v => [(k, v)]
  | (k1, v1) :: rest, k, v =>
    if k1 = k then (k, v) :: rest else (k1, v1) :: dictSet rest k v

/-- Python `d.get(k)` on the header dict. -/
def dictGet : List (String × String) → String → Option String
  | [], _ => none
  | (k1, v1) :: rest, k => if k1 = k then some v1 else dictGet rest k

/-- The initial class-level `GitHub.__headers` value. -/
def initHeaders : List (String × String) :=
  [("Accept", "application/vnd.github.v3+json")]

/-- Per-instance state produced by `GitHub.__init__` (both variants). -/
structure GitHubInst where
  token : Option String
  owner : String
  repo : String
  perPage : Nat
deriving Repr

/-- `GitHub.__init__`: exits when owner, repo or the sink is missing
(falsy); with a truthy token it writes the `Authorization` entry into the
CLASS-level header dict and remembers the token on the instance. Returns
the updated class headers together with the instance (or `none` when the
constructor exited). -/
def githubInit (classHeaders : List (String × String)) (owner repo : String)
    (perPage : Nat) (token : Option String) (haveSaveMongo : Bool) :
    List (String × String) × Option GitHubInst :=
  if owner = "" ∨ repo = "" ∨ haveSaveMongo = false then (classHeaders, none)
  else
    match token with
    | some t =>
      if t = "" then (classHeaders, some ⟨none, owner, repo, perPage⟩)
      else (dictSet classHeaders "Authorization" ("token " ++ t),
            some ⟨some t, owner, repo, perPage⟩)
    | none => (classHeaders, some ⟨none, owner, repo, perPage⟩)

/-! ## Concrete fixtures used by witnesses and counterexamples -/

/-- A Mongo configuration whose repository url is registered in `vcs0`. -/
def cfg0 : MongoCfg := { repoUrl := some "https://example.org/repo" }

/-- Store fixture: one VCS system, one workflow (platform id 7, object id
100) and one run (platform id 55, object id 200). -/
def st0 : MongoState :=
  { vcs := [("https://example.org/repo", 1)],
    workflows := [(7, 100)],
    runs := [(55, 200)],
    nextOid := 300 }

/-- Raw workflow item with only an id; all optional fields are absent. -/
def wfObj0 : JVal := .jObj [("id", .jInt 55)]

/-- Expected conversion of `wfObj0`. -/
def wfRec0 : WorkflowRec :=
  { workflow_id := 55, name := .jNull, path := .jNull, state := .jNull,
    created_at := .jNull, updated_at := .jNull, repo_id := 1,
    repo_url := some "https://example.org/repo" }

/-- Raw run item whose `run_started_at` is a timestamp string of the
no-fraction format. -/
def runObj0 : JVal :=
  .jObj [("id", .jInt 1), ("run_number", .jInt 2), ("workflow_id", .jInt 7),
         ("run_attempt", .jInt 1),
         ("run_started_at", .jStr "2022-01-01T00:00:00Z")]

/-- Expected conversion of `runObj0`: every field the converter parses is
parsed, but `run_started_at` is the raw string. -/
def runRec0 : RunRec :=
  { run_id := 1, name := .jNull, run_number := 2, event := .jNull,
    status := .jNull, conclusion := .jNull, workflow_id := 100,
    workflow_id_int := 7, pull_requests := [], created_at := .jNull,
    updated_at := .jNull, run_attempt := 1,
    run_started_at := .jStr "2022-01-01T00:00:00Z", head_commit := .jNull,
    head_repository := .jNull }

/-- Raw job item with both runner identifiers present and truthy. -/
def jobObjRunner : JVal :=
  .jObj [("id", .jInt 3), ("run_id", .jInt 55), ("run_attempt", .jInt 1),
         ("runner_id", .jInt 9), ("runner_group_id", .jInt 2)]

/-- Expected conversion of `jobObjRunner`. -/
def jobRecRunner : JobRec :=
  { job_id := 3, name := .jNull, run_id := 200, run_attempt := 1,
    status := .jNull, conclusion := .jNull, started_at := .jNull,
    completed_at := .jNull, steps := [], runner_id := .jInt 9,
    runner_name := .jNull, runner_group_id := .jInt 2,
    runner_group_name := .jNull }

/-- Raw job item with both runner identifiers absent. -/
def jobObjNoRunner : JVal :=
  .jObj [("id", .jInt 3), ("run_id", .jInt 55), ("run_attempt", .jInt 1)]

/-- Expected conversion of `jobObjNoRunner`. -/
def jobRecNoRunner : JobRec :=
  { job_id := 3, name := .jNull, run_id := 200, run_attempt := 1,
    status := .jNull, conclusion := .jNull, started_at := .jNull,
    completed_at := .jNull, steps := [], runner_id := .jNull,
    runner_name := .jNull, runner_group_id := .jNull,
    runner_group_name := .jNull }

/-- Raw job-step item whose `number` is present and truthy. -/
def stepObjNum : JVal := .jObj [("number", .jInt 3)]

/-- Raw job-step item whose `number` is absent. -/
def stepObjNoNum : JVal := .jObj [("name", .jStr "s")]

/-- Raw artifact item fixture. -/
def artObj0 : JVal := .jObj [("id", .jInt 9), ("size_in_bytes", .jInt 10)]

/-- Raw job item lacking an `id` key (conversion fails at `int(None)` and
the error handler's `document["id"]` lookup then raises `KeyError`). -/
def jobObjNoId : JVal := .jObj [("run_id", .jInt 999)]

/-- Raw job item with an `id` but an unresolvable `run_id`. -/
def jobObjBadRun : JVal :=
  .jObj [("id", .jInt 5), ("run_id", .jInt 999), ("run_attempt", .jInt 1)]

/-- Raw job item with an `id` and a resolvable `run_id`. -/
def jobObjGood : JVal :=
  .jObj [("id", .jInt 6), ("run_id", .jInt 55), ("run_attempt", .jInt 1)]

/-- Expected conversion of `stepObjNum`: the inverted guard stores `None`
for the present step number 3. -/
def stepRecNum : JobStepRec :=
  { name := .jNull, status := .jNull, conclusion := .jNull, number := .jNull,
    started_at := .jNull, completed_at := .jNull }

/-- Expected conversion of `artObj0`. -/
def artRec0 : ArtifactRec :=
  { artifact_id := 9, name := .jNull, size_in_bytes := 10,
    archive_download_url := .jNull, expired := false, created_at := .jNull,
    updated_at := .jNull, expires_at := .jNull }

/-! ## Helper lemmas -/

/-- Dropping the length of an appended suffix recovers the original string,
so the page-fragment strip in `paginating` undoes the append exactly. -/
theorem pyDropRight_append (s t : String) : pyDropRight (s ++ t) t.length = s := by
  rcases s with ⟨ds⟩
  rcases t with ⟨dt⟩
  show pyDropRight ⟨ds ++ dt⟩ (String.mk dt).length = ⟨ds⟩
  simp [pyDropRight, String.length, List.take_left]

/-- Inversion for a successful `Except.bind`. -/
theorem exceptBind_ok {ε α β : Type} {x : Except ε α} {f : α → Except ε β} {b : β} :
    Except.bind x f = Except.ok b ↔ ∃ a, x = Except.ok a ∧ f a = Except.ok b := by
  cases x <;> simp [Except.bind]

/-- With no falsy run id, variant A's job loop is one jobs fetch per id. -/
theorem jobLoopA_eq_map (o r : String) (pp : Nat) :
    ∀ ids : List Int, (0 : Int) ∉ ids →
      jobLoopA o r pp ids =
        ids.map (fun runId => RunEvent.paginate (jobsUrl o r pp runId) "jobs") := by
  intro ids h
  induction ids with
  | nil => rfl
  | cons i is ih =>
    have hi : i ≠ 0 := fun he => h (by simp [he])
    have hrest : (0 : Int) ∉ is := fun he => h (by simp [he])
    simp [jobLoopA, hi, ih hrest]

/-- With no falsy run id, a variant-B per-run loop is one fetch per id and
does not exit. -/
theorem runLoopB_eq_map (mk : Int → RunEvent) :
    ∀ ids : List Int, (0 : Int) ∉ ids → runLoopB mk ids = (ids.map mk, false) := by
  intro ids h
  induction ids with
  | nil => rfl
  | cons i is ih =>
    have hi : i ≠ 0 := fun he => h (by simp [he])
    have hrest : (0 : Int) ∉ is := fun he => h (by simp [he])
    simp [runLoopB, hi, ih hrest]

/-- Variant A's job loop never issues the current-user request. -/
theorem jobLoopA_no_userreq (o r : String) (pp : Nat) :
    ∀ ids : List Int, ∀ e ∈ jobLoopA o r pp ids, isUserReq e = false := by
  intro ids
  induction ids with
  | nil => intro e he; cases he
  | cons i is ih =>
    intro e he
    by_cases hi : i = 0
    · simp [jobLoopA, hi] at he
      rcases he with rfl | rfl <;> rfl
    · simp [jobLoopA, hi] at he
      rcases he with rfl | he
      · rfl
      · exact ih e he

/-! ## Claim theorems -/

/-- C1 (counterexample): the claim says a 403 leads to the identical
request being retried, with the same single page query parameter. On the
concrete script (403, then a final page), variant A retries with the URL
"U&page=1&page=1": the page fragment is appended again without the
previous one being stripped, so the retried URL is not the original one. -/
theorem c1_rate_limit_retry_counterexample :
    paginatingA "workflow" 100 "U" 1 [Resp.limited 1000 400, Resp.ok [1]] =
      [PgEvent.request "U&page=1", PgEvent.sleep 600,
       PgEvent.request "U&page=1&page=1", PgEvent.save [1] "workflow"] ∧
    ("U&page=1&page=1" : String) ≠ "U&page=1" := by
  exact ⟨by decide, by decide⟩

/-- C1 (amended): on a 403, neither variant increments the page counter and
neither forwards items to the sink, and variant A retries after sleeping —
but the retried request's URL is the previous URL with one more duplicate
page fragment appended (same page number, not the identical URL); variant B
sleeps and then dies with AttributeError (undefined self.get_limit) instead
of retrying. -/
theorem c1_rate_limit_retry_amended :
    ∀ (action : String) (pp : Nat) (url : String) (page : Nat) (reset now : Int)
      (rest : List Resp) (r : Resp) (rs : List Resp),
    (paginatingA action pp url page (.limited reset now :: rest) =
      PgEvent.request (url ++ pageFragment page) ::
      PgEvent.sleep (Int.emod (reset - now) 86400) ::
        paginatingA action pp (url ++ pageFragment page) page rest) ∧
    ((paginatingA action pp url page (.limited reset now :: r :: rs)).take 3 =
      [PgEvent.request (url ++ pageFragment page),
       PgEvent.sleep (Int.emod (reset - now) 86400),
       PgEvent.request (url ++ pageFragment page ++ pageFragment page)]) ∧
    (paginatingB action pp url page (.limited reset now :: rest) =
      [PgEvent.request (url ++ pageFragment page),
       PgEvent.sleep (Int.emod (now - reset) 86400),
       PgEvent.crash "AttributeError"]) := by
  intro action pp url page reset now rest r rs
  refine ⟨rfl, ?_, rfl⟩
  simp [paginatingA]

/-- C2 (counterexample): the claim says the sleep duration is computed as
reset time minus current time in both variants. With reset 1000 and
current 400, variant B sleeps 85800 seconds (the seconds component of the
reversed subtraction), not 600. -/
theorem c2_sleep_duration_counterexample :
    paginatingB "run" 100 "U" 1 [Resp.limited 1000 400] =
      [PgEvent.request "U&page=1", PgEvent.sleep 85800,
       PgEvent.crash "AttributeError"] ∧
    (85800 : Int) ≠ 1000 - 400 := by
  exact ⟨by decide, by decide⟩

/-- C2 (amended): on a 403, variant A sleeps for the seconds component of
reset minus current, i.e. (reset - now) mod 86400 — which equals the claimed
reset minus current whenever that difference lies within one day — while
variant B sleeps for (now - reset) mod 86400, the reversed subtraction. -/
theorem c2_sleep_duration_amended :
    ∀ (action : String) (pp : Nat) (url : String) (page : Nat) (reset now : Int)
      (rest : List Resp),
    ((paginatingA action pp url page (.limited reset now :: rest)).take 2 =
      [PgEvent.request (url ++ pageFragment page),
       PgEvent.sleep (Int.emod (reset - now) 86400)]) ∧
    ((paginatingB action pp url page (.limited reset now :: rest)).take 2 =
      [PgEvent.request (url ++ pageFragment page),
       PgEvent.sleep (Int.emod (now - reset) 86400)]) ∧
    (0 ≤ reset - now → reset - now < 86400 →
      Int.emod (reset - now) 86400 = reset - now) := by
  intro action pp url page reset now rest
  refine ⟨by simp [paginatingA], by simp [paginatingB], ?_⟩
  intro h1 h2
  exact Int.emod_eq_of_lt h1 h2

/-- C2 (witness): the amended statement evaluated at reset 1000, now 400. -/
theorem c2_sleep_duration_witness :
    ((paginatingA "run" 100 "U" 1 [Resp.limited 1000 400]).take 2 =
      [PgEvent.request ("U" ++ pageFragment 1),
       PgEvent.sleep (Int.emod ((1000 : Int) - 400) 86400)]) ∧
    Int.emod ((1000 : Int) - 400) 86400 = 1000 - 400 :=
  ⟨(c2_sleep_duration_amended "run" 100 "U" 1 1000 400 []).1,
   (c2_sleep_duration_amended "run" 100 "U" 1 1000 400 []).2.2 (by decide) (by decide)⟩

/-- C7 (counterexample): the claim says every page with item count strictly
below the page size is forwarded to the sink exactly once before the loop
terminates. An empty page has count 0 < 100, yet both variants terminate
without any sink call. -/
theorem c7_pagination_counterexample :
    paginatingA "workflow" 100 "U" 1 [Resp.ok []] = [PgEvent.request "U&page=1"] ∧
    paginatingB "workflow" 100 "U" 1 [Resp.ok []] = [PgEvent.request "U&page=1"] ∧
    (0 : Nat) < 100 := by
  exact ⟨by decide, by decide, by decide⟩

/-- C7 (amended): in both variants, a nonempty page with item count below
the page size is forwarded exactly once and the loop then terminates with
no further request; an empty page terminates the loop without forwarding;
and after a full page the loop continues with page + 1 on the same base
URL, so the next request carries the incremented page number and leaves
every other part of the URL unchanged. -/
theorem c7_pagination_amended :
    ∀ (action : String) (pp : Nat) (url : String) (page : Nat)
      (items : List Nat) (rest : List Resp) (r : Resp) (rs : List Resp),
    (0 < items.length → items.length < pp →
      paginatingA action pp url page (.ok items :: rest) =
        [PgEvent.request (url ++ pageFragment page), PgEvent.save items action]) ∧
    (paginatingA action pp url page (.ok [] :: rest) =
      [PgEvent.request (url ++ pageFragment page)]) ∧
    (0 < pp → items.length = pp →
      paginatingA action pp url page (.ok items :: rest) =
        PgEvent.request (url ++ pageFragment page) :: PgEvent.save items action ::
          paginatingA action pp url (page + 1) rest) ∧
    (0 < pp → items.length = pp →
      (paginatingA action pp url page (.ok items :: r :: rs)).take 3 =
        [PgEvent.request (url ++ pageFragment page), PgEvent.save items action,
         PgEvent.request (url ++ pageFragment (page + 1))]) ∧
    (0 < items.length → items.length < pp →
      paginatingB action pp url page (.ok items :: rest) =
        [PgEvent.request (url ++ pageFragment page), PgEvent.save items action]) ∧
    (paginatingB action pp url page (.ok [] :: rest) =
      [PgEvent.request (url ++ pageFragment page)]) ∧
    (0 < pp → items.length = pp →
      paginatingB action pp url page (.ok items :: rest) =
        PgEvent.request (url ++ pageFragment page) :: PgEvent.save items action ::
          paginatingB action pp url (page + 1) rest) ∧
    (0 < pp → items.length = pp →
      (paginatingB action pp url page (.ok items :: r :: rs)).take 3 =
        [PgEvent.request (url ++ pageFragment page), PgEvent.save items action,
         PgEvent.request (url ++ pageFragment (page + 1))]) := by
  intro action pp url page items rest r rs
  refine ⟨?_, by simp [paginatingA], ?_, ?_, ?_, by simp [paginatingB], ?_, ?_⟩
  · intro h1 h2
    have hne : items.length ≠ 0 := Nat.pos_iff_ne_zero.mp h1
    simp [paginatingA, hne, h2]
  · intro h1 h2
    have hne : items.length ≠ 0 := by omega
    have hnlt : ¬ items.length < pp := by omega
    simp [paginatingA, hne, hnlt, pyDropRight_append]
  · intro h1 h2
    have hne : items.length ≠ 0 := by omega
    have hnlt : ¬ items.length < pp := by omega
    simp [paginatingA, hne, hnlt, pyDropRight_append]
  · intro h1 h2
    have hne : items.length ≠ 0 := Nat.pos_iff_ne_zero.mp h1
    simp [paginatingB, hne, h2]
  · intro h1 h2
    have hne : items.length ≠ 0 := by omega
    have hnlt : ¬ items.length < pp := by omega
    simp [paginatingB, hne, hnlt, pyDropRight_append]
  · intro h1 h2
    have hne : items.length ≠ 0 := by omega
    have hnlt : ¬ items.length < pp := by omega
    simp [paginatingB, hne, hnlt, pyDropRight_append]

/-- C7 (witness): the amended statement evaluated on a short page of 2
items with page size 3, and on a full page of 3 items. -/
theorem c7_pagination_witness :
    (paginatingA "run" 3 "U" 1 [Resp.ok [10, 11]] =
      [PgEvent.request ("U" ++ pageFragment 1), PgEvent.save [10, 11] "run"]) ∧
    ((paginatingA "run" 3 "U" 1 [Resp.ok [10, 11, 12], Resp.ok []]).take 3 =
      [PgEvent.request ("U" ++ pageFragment 1), PgEvent.save [10, 11, 12] "run",
       PgEvent.request ("U" ++ pageFragment 2)]) :=
  ⟨(c7_pagination_amended "run" 3 "U" 1 [10, 11] [] (Resp.ok []) []).1
     (by decide) (by decide),
   (c7_pagination_amended "run" 3 "U" 1 [10, 11, 12] [] (Resp.ok []) []).2.2.2.1
     (by decide) (by decide)⟩

/-- C8 (confirmed): in variant A's run, with a token configured, the single
current-user request happens first; a 401 aborts with exit code 1 before
any paginating fetch; any other precheck response leads to exactly the
token-less fetch behaviour after the one authentication request, and the
token-less trace itself contains no current-user request. -/
theorem c8_auth_precheck :
    ∀ (o r : String) (pp : Nat) (runsObj : Option (List Int)),
    (runA true true o r pp runsObj =
      [RunEvent.request userUrl, RunEvent.logError, RunEvent.logError,
       RunEvent.logError, RunEvent.logError, RunEvent.exit 1]) ∧
    (runA true false o r pp runsObj =
      RunEvent.request userUrl :: runA false false o r pp runsObj) ∧
    (∀ e ∈ runA false false o r pp runsObj, isUserReq e = false) := by
  intro o r pp runsObj
  refine ⟨rfl, rfl, ?_⟩
  intro e he
  cases runsObj with
  | none =>
    simp [runA, runBodyA, fetchWorkflowsA, fetchArtifactsA, fetchRunsA] at he
    rcases he with rfl | rfl | rfl | rfl | rfl <;> rfl
  | some ids =>
    simp [runA, runBodyA, fetchWorkflowsA, fetchArtifactsA, fetchRunsA] at he
    rcases he with rfl | rfl | rfl | he
    · rfl
    · rfl
    · rfl
    · exact jobLoopA_no_userreq o r pp ids e he

/-- C8 (witness): the precheck statement evaluated at concrete arguments,
with the membership hypothesis discharged at the head event of the 401
trace. -/
theorem c8_auth_precheck_witness :
    (runA true true "o" "r" 100 none =
      [RunEvent.request userUrl, RunEvent.logError, RunEvent.logError,
       RunEvent.logError, RunEvent.logError, RunEvent.exit 1]) ∧
    isUserReq (RunEvent.paginate (workflowsUrl "o" "r" 100) "workflows") = false :=
  ⟨(c8_auth_precheck "o" "r" 100 none).1,
   (c8_auth_precheck "o" "r" 100 none).2.2
     (RunEvent.paginate (workflowsUrl "o" "r" 100) "workflows") (by simp [runA, runBodyA, fetchWorkflowsA])⟩

/-- C9 (confirmed): the header dict is class-level shared state. After one
instance is constructed with a token, a second instance constructed with no
token still finds that token's Authorization entry in the (class) headers
its requests are sent with, even though the second instance itself stores
no token. -/
theorem c9_shared_headers :
    ∀ (t o1 r1 o2 r2 : String) (pp1 pp2 : Nat),
    t ≠ "" → o1 ≠ "" → r1 ≠ "" → o2 ≠ "" → r2 ≠ "" →
    dictGet (githubInit (githubInit initHeaders o1 r1 pp1 (some t) true).1
        o2 r2 pp2 none true).1 "Authorization" = some ("token " ++ t) ∧
    Option.map GitHubInst.token
      (githubInit (githubInit initHeaders o1 r1 pp1 (some t) true).1
        o2 r2 pp2 none true).2 = some none := by
  intro t o1 r1 o2 r2 pp1 pp2 ht ho1 hr1 ho2 hr2
  simp [githubInit, initHeaders, dictSet, dictGet, ht, ho1, hr1, ho2, hr2]

/-- C9 (witness): the shared-header statement at concrete construction
arguments. -/
theorem c9_shared_headers_witness :
    dictGet (githubInit (githubInit initHeaders "a" "b" 1 (some "T") true).1
        "c" "d" 2 none true).1 "Authorization" = some ("token " ++ "T") ∧
    Option.map GitHubInst.token
      (githubInit (githubInit initHeaders "a" "b" 1 (some "T") true).1
        "c" "d" 2 none true).2 = some none :=
  c9_shared_headers "T" "a" "b" "c" "d" 1 2 (by decide) (by decide) (by decide)
    (by decide) (by decide)

/-- C3 (code defect evaluation): the two runner fields of the job converter
follow the claimed rule (present and truthy gives the coerced integer,
absent gives None), but the job-step `number` guard is inverted: a present
step number 3 is stored as None, and an absent step number is passed to
`int(None)`, raising TypeError so the whole step conversion fails instead
of storing None. -/
theorem c3_optional_numeric_eval :
    createJob st0 jobObjRunner = Except.ok (some jobRecRunner) ∧
    createJob st0 jobObjNoRunner = Except.ok (some jobRecNoRunner) ∧
    createJobStep stepObjNum = Except.ok (some stepRecNum) ∧
    createJobStep stepObjNoNum = Except.error PyErr.typeError :=
  ⟨rfl, rfl, rfl, rfl⟩

/-- C4 (counterexample): the claim says run() aborts with a logged error
when the run-id source is not supplied. In the actionshark variant, run()
without a runs object fetches workflows and runs and then returns silently:
the trace contains no error log and no exit. -/
theorem c4_run_order_counterexample :
    runB false "o" "r" 100 none =
      [RunEvent.paginate (workflowsUrl "o" "r" 100) "workflows",
       RunEvent.paginate (runsUrlB "o" "r" 100) "workflow_runs"] ∧
    RunEvent.exit 1 ∉ runB false "o" "r" 100 none ∧
    RunEvent.logError ∉ runB false "o" "r" 100 none := by
  exact ⟨rfl, by decide, by decide⟩

/-- C4 (amended): in the actionSHARK variant, run() fetches workflows, then
repository-level artifacts, then runs; without a runs object it logs two
errors and exits without fetching jobs, and with one it fetches jobs for
every run id (there is no artifact-per-run fetch). In the actionshark
variant, run() fetches workflows then runs; without a runs object it ends
silently, and with one it fetches jobs for every run id and then artifacts
for every run id. -/
theorem c4_run_order_amended :
    ∀ (o r : String) (pp : Nat) (ids : List Int) (ht : Bool),
    (0 : Int) ∉ ids →
    (runA ht false o r pp none =
      (if ht then [RunEvent.request userUrl] else []) ++
        fetchWorkflowsA o r pp ++ fetchArtifactsA o r pp ++ fetchRunsA o r pp ++
        [RunEvent.logError, RunEvent.logError, RunEvent.exit 1]) ∧
    (runA ht false o r pp (some ids) =
      (if ht then [RunEvent.request userUrl] else []) ++
        fetchWorkflowsA o r pp ++ fetchArtifactsA o r pp ++ fetchRunsA o r pp ++
        ids.map (fun runId => RunEvent.paginate (jobsUrl o r pp runId) "jobs")) ∧
    (runB false o r pp none =
      [RunEvent.paginate (workflowsUrl o r pp) "workflows",
       RunEvent.paginate (runsUrlB o r pp) "workflow_runs"]) ∧
    (runB false o r pp (some ids) =
      [RunEvent.paginate (workflowsUrl o r pp) "workflows",
       RunEvent.paginate (runsUrlB o r pp) "workflow_runs"] ++
        ids.map (fun runId => RunEvent.paginate (jobsUrl o r pp runId) "jobs") ++
        ids.map (fun runId => RunEvent.paginate (artifactsUrlB o r pp runId) "artifacts")) := by
  intro o r pp ids ht h
  refine ⟨?_, ?_, rfl, ?_⟩
  · cases ht <;> simp [runA, runBodyA]
  · cases ht <;> simp [runA, runBodyA, jobLoopA_eq_map o r pp ids h]
  · simp [runB, runBodyB, runLoopB_eq_map _ ids h]

/-- C4 (witness): the amended orchestration statement at run ids 5 and 6
without a token, via the job-fetch conjunct of variant A. -/
theorem c4_run_order_witness :
    runA false false "o" "r" 100 (some [5, 6]) =
      (if false then [RunEvent.request userUrl] else []) ++
        fetchWorkflowsA "o" "r" 100 ++ fetchArtifactsA "o" "r" 100 ++
        fetchRunsA "o" "r" 100 ++
        ([5, 6] : List Int).map
          (fun runId => RunEvent.paginate (jobsUrl "o" "r" 100 runId) "jobs") :=
  (c4_run_order_amended "o" "r" 100 [5, 6] false (by decide)).2.1

/-- C5 (counterexample): the claim says any single item's failure is caught
so that every later item of the batch is still processed. In a job batch
whose first item fails conversion and lacks an id key, the error handler's
own `document["id"]` lookup raises KeyError, so the batch aborts with no
item processed — even though the second item would have converted fine. -/
theorem c5_batch_isolation_counterexample :
    saveDocuments cfg0 st0 (.jList [jobObjNoId, jobObjGood]) (some "job") =
      ([], st0, some PyErr.keyError) ∧
    isFailure (convertFor "job" cfg0 st0 jobObjGood) = false :=
  ⟨rfl, rfl⟩

/-- C5 (amended): a batch for an unknown resource kind is dropped whole
with nothing saved; and per-item failure isolation holds provided every raw
item carries an `id` key: then the loop yields one outcome (saved or
logged-failure) per item and never propagates an exception. -/
theorem c5_batch_isolation_amended :
    (∀ (cfg : MongoCfg) (st : MongoState) (documents : JVal) (a : String),
      a ∉ opKeys → saveDocuments cfg st documents (some a) = ([], st, none)) ∧
    (∀ (cfg : MongoCfg) (a : String) (st : MongoState) (ds : List JVal),
      (∀ d ∈ ds, ∃ i, pySub d "id" = Except.ok i) →
      (saveLoop cfg a st ds).1.length = ds.length ∧
      (saveLoop cfg a st ds).2.2 = none) := by
  constructor
  · intro cfg st documents a h
    simp only [saveDocuments]
    by_cases hcond : truthy documents = false ∨ a = ""
    · rw [if_pos hcond]
    · rw [if_neg hcond, if_neg h]
  · intro cfg a st ds
    induction ds generalizing st with
    | nil => intro _; exact ⟨rfl, rfl⟩
    | cons d ds ih =>
      intro h
      obtain ⟨i, hi⟩ := h d (by simp)
      have hrest : ∀ x ∈ ds, ∃ j, pySub x "id" = Except.ok j :=
        fun x hx => h x (by simp [hx])
      simp only [saveLoop]
      cases hc : convertFor a cfg st d with
      | ok o =>
        cases o with
        | some rec =>
          have := ih (persist st rec) hrest
          simp [this.1, this.2]
        | none =>
          have := ih st hrest
          simp [hi, this.1, this.2]
      | error e =>
        have := ih st hrest
        simp [hi, this.1, this.2]

/-- C5 (witness): the amended statement at an unknown kind and at a
two-item job batch whose first item has an unresolvable run id but carries
an id key: both items yield outcomes and no exception escapes. -/
theorem c5_batch_isolation_witness :
    (saveDocuments cfg0 st0 (.jList [jobObjGood]) (some "nope") = ([], st0, none)) ∧
    ((saveLoop cfg0 "job" st0 [jobObjBadRun, jobObjGood]).1.length =
      [jobObjBadRun, jobObjGood].length ∧
     (saveLoop cfg0 "job" st0 [jobObjBadRun, jobObjGood]).2.2 = none) :=
  ⟨c5_batch_isolation_amended.1 cfg0 st0 (.jList [jobObjGood]) "nope" (by decide),
   c5_batch_isolation_amended.2 cfg0 "job" st0 [jobObjBadRun, jobObjGood]
     (by
       intro d hd
       simp only [List.mem_cons, List.mem_singleton, List.not_mem_nil, or_false] at hd
       rcases hd with rfl | rfl
       · exact ⟨.jInt 5, rfl⟩
       · exact ⟨.jInt 6, rfl⟩)⟩

/-- C10 (confirmed): when an item of a known-kind batch fails to convert
and save, and its raw mapping has no `id` key, the per-item error handler's
`document["id"]` lookup raises KeyError itself, so the loop returns with no
outcome and the remaining items of the batch are never processed. -/
theorem c10_handler_keyerror :
    ∀ (cfg : MongoCfg) (st : MongoState) (a : String) (d : JVal) (ds : List JVal),
    a ∈ opKeys → isFailure (convertFor a cfg st d) = true →
    pySub d "id" = Except.error PyErr.keyError →
    saveDocuments cfg st (.jList (d :: ds)) (some a) = ([], st, some PyErr.keyError) := by
  intro cfg st a d ds hmem hfail hid
  have ha : a ≠ "" := by
    simp only [opKeys, List.mem_cons, List.mem_singleton, List.not_mem_nil, or_false] at hmem
    rcases hmem with rfl | rfl | rfl | rfl <;> decide
  simp only [saveDocuments]
  rw [if_neg (by simp [truthy, ha]), if_pos hmem]
  simp only [saveLoop]
  cases hc : convertFor a cfg st d with
  | ok o =>
    cases o with
    | some rec => rw [hc] at hfail; exact absurd hfail (by simp [isFailure])
    | none => simp [hid]
  | error e => simp [hid]

/-- C10 (witness): the handler-raises statement at a concrete job batch
whose first item lacks an id key. -/
theorem c10_handler_keyerror_witness :
    saveDocuments cfg0 st0 (.jList [jobObjNoId, jobObjGood]) (some "job") =
      ([], st0, some PyErr.keyError) :=
  c10_handler_keyerror cfg0 st0 "job" jobObjNoId [jobObjGood] (by decide)
    (by decide) rfl

/-- C6 (counterexample): the claim says every timestamp field of every
converted record is parsed to a calendar instant. The run converter stores
`run_started_at` raw: on a run item whose `run_started_at` is the timestamp
string, the stored field is that string, not the date value the parser
would produce for it. -/
theorem c6_timestamp_parsing_counterexample :
    createRun st0 runObj0 = Except.ok (some runRec0) ∧
    runRec0.run_started_at = JVal.jStr "2022-01-01T00:00:00Z" ∧
    parseDate (.jStr "2022-01-01T00:00:00Z") false =
      Except.ok (.jDate 2022 1 1 0 0 0 0 0) ∧
    JVal.jStr "2022-01-01T00:00:00Z" ≠ JVal.jDate 2022 1 1 0 0 0 0 0 :=
  ⟨rfl, rfl, rfl, by simp⟩

/-- C6 (amended): a falsy timestamp source yields None rather than an
error, and every timestamp field of a successfully converted record is the
`__parse_date` result of its source field with the converter's fixed
sub-second flag — except `Run.run_started_at`, which is copied raw without
parsing. -/
theorem c6_timestamp_parsing_amended :
    (∀ (v : JVal) (b : Bool), truthy v = false → parseDate v b = Except.ok .jNull) ∧
    (∀ (cfg : MongoCfg) (st : MongoState) (obj : JVal) (w : WorkflowRec),
      createWorkflow cfg st obj = Except.ok (some w) →
      Except.bind (pyGet obj "created_at") (fun v => parseDate v true) =
        Except.ok w.created_at ∧
      Except.bind (pyGet obj "updated_at") (fun v => parseDate v true) =
        Except.ok w.updated_at) ∧
    (∀ (st : MongoState) (obj : JVal) (rn : RunRec),
      createRun st obj = Except.ok (some rn) →
      (Except.bind (pyGet obj "created_at") (fun v => parseDate v false) =
        Except.ok rn.created_at ∧
       Except.bind (pyGet obj "updated_at") (fun v => parseDate v false) =
        Except.ok rn.updated_at) ∧
      pyGet obj "run_started_at" = Except.ok rn.run_started_at) ∧
    (∀ (st : MongoState) (obj : JVal) (j : JobRec),
      createJob st obj = Except.ok (some j) →
      Except.bind (pyGet obj "started_at") (fun v => parseDate v false) =
        Except.ok j.started_at ∧
      Except.bind (pyGet obj "completed_at") (fun v => parseDate v false) =
        Except.ok j.completed_at) ∧
    (∀ (obj : JVal) (s : JobStepRec),
      createJobStep obj = Except.ok (some s) →
      Except.bind (pyGet obj "started_at") (fun v => parseDate v true) =
        Except.ok s.started_at ∧
      Except.bind (pyGet obj "completed_at") (fun v => parseDate v true) =
        Except.ok s.completed_at) ∧
    (∀ (obj : JVal) (a : ArtifactRec),
      createArtifact obj = Except.ok (some a) →
      Except.bind (pyGet obj "created_at") (fun v => parseDate v false) =
        Except.ok a.created_at ∧
      Except.bind (pyGet obj "updated_at") (fun v => parseDate v false) =
        Except.ok a.updated_at ∧
      Except.bind (pyGet obj "expires_at") (fun v => parseDate v false) =
        Except.ok a.expires_at) := by
  refine ⟨?_, ?_, ?_, ?_, ?_, ?_⟩
  · intro v b hv
    simp [parseDate, hv]
  · intro cfg st obj w h
    by_cases htr : truthy obj = false
    · rw [createWorkflow, if_pos htr] at h
      exact absurd h (by simp)
    · rw [createWorkflow, if_neg htr] at h
      simp only [exceptBind_ok, Except.ok.injEq, Option.some.injEq] at h
      obtain ⟨a1, h1, a2, h2, a3, h3, a4, h4, a5, h5, a6, h6, a7, h7, a8, h8,
        a9, h9, a10, h10, hw⟩ := h
      subst hw
      exact ⟨by simp [h6, h7, Except.bind], by simp [h8, h9, Except.bind]⟩
  · intro st obj rn h
    by_cases htr : truthy obj = false
    · rw [createRun, if_pos htr] at h
      exact absurd h (by simp)
    · rw [createRun, if_neg htr] at h
      simp only [exceptBind_ok, Except.ok.injEq, Option.some.injEq] at h
      obtain ⟨a1, h1, a2, h2, a3, h3, a4, h4, a5, h5, a6, h6, a7, h7, a8, h8,
        a9, h9, a10, h10, a11, h11, a12, h12, a13, h13, a14, h14, a15, h15,
        a16, h16, a17, h17, a18, h18, a19, h19, a20, h20, a21, h21, a22, h22,
        hw⟩ := h
      subst hw
      exact ⟨⟨by simp [h14, h15, Except.bind], by simp [h16, h17, Except.bind]⟩,
        by simp [h20]⟩
  · intro st obj j h
    by_cases htr : truthy obj = false
    · rw [createJob, if_pos htr] at h
      exact absurd h (by simp)
    · rw [createJob, if_neg htr] at h
      simp only [exceptBind_ok, Except.ok.injEq, Option.some.injEq] at h
      obtain ⟨a1, h1, a2, h2, a3, h3, a4, h4, a5, h5, a6, h6, a7, h7, a8, h8,
        a9, h9, a10, h10, a11, h11, a12, h12, a13, h13, a14, h14, a15, h15,
        a16, h16, a17, h17, a18, h18, a19, h19, a20, h20, a21, h21, a22, h22,
        hw⟩ := h
      subst hw
      exact ⟨by simp [h11, h12, Except.bind], by simp [h13, h14, Except.bind]⟩
  · intro obj s h
    by_cases htr : truthy obj = false
    · rw [createJobStep, if_pos htr] at h
      exact absurd h (by simp)
    · rw [createJobStep, if_neg htr] at h
      simp only [exceptBind_ok, Except.ok.injEq, Option.some.injEq] at h
      obtain ⟨a1, h1, a2, h2, a3, h3, a4, h4, a5, h5, a6, h6, a7, h7, a8, h8,
        a9, h9, hw⟩ := h
      subst hw
      exact ⟨by simp [h6, h7, Except.bind], by simp [h8, h9, Except.bind]⟩
  · intro obj a h
    by_cases htr : truthy obj = false
    · rw [createArtifact, if_pos htr] at h
      exact absurd h (by simp)
    · rw [createArtifact, if_neg htr] at h
      simp only [exceptBind_ok, Except.ok.injEq, Option.some.injEq] at h
      obtain ⟨a1, h1, a2, h2, a3, h3, a4, h4, a5, h5, a6, h6, a7, h7, a8, h8,
        a9, h9, a10, h10, a11, h11, a12, h12, a13, h13, hw⟩ := h
      subst hw
      exact ⟨by simp [h8, h9, Except.bind], by simp [h10, h11, Except.bind],
        by simp [h12, h13, Except.bind]⟩

/-- C6 (witness): the amended statement evaluated at the concrete fixture
records of each converter, with every conversion-success hypothesis
discharged by computation. -/
theorem c6_timestamp_parsing_witness :
    parseDate .jNull false = Except.ok .jNull ∧
    (Except.bind (pyGet wfObj0 "created_at") (fun v => parseDate v true) =
       Except.ok wfRec0.created_at ∧
     Except.bind (pyGet wfObj0 "updated_at") (fun v => parseDate v true) =
       Except.ok wfRec0.updated_at) ∧
    ((Except.bind (pyGet runObj0 "created_at") (fun v => parseDate v false) =
        Except.ok runRec0.created_at ∧
      Except.bind (pyGet runObj0 "updated_at") (fun v => parseDate v false) =
        Except.ok runRec0.updated_at) ∧
     pyGet runObj0 "run_started_at" = Except.ok runRec0.run_started_at) ∧
    (Except.bind (pyGet jobObjNoRunner "started_at") (fun v => parseDate v false) =
       Except.ok jobRecNoRunner.started_at ∧
     Except.bind (pyGet jobObjNoRunner "completed_at") (fun v => parseDate v false) =
       Except.ok jobRecNoRunner.completed_at) ∧
    (Except.bind (pyGet stepObjNum "started_at") (fun v => parseDate v true) =
       Except.ok stepRecNum.started_at ∧
     Except.bind (pyGet stepObjNum "completed_at") (fun v => parseDate v true) =
       Except.ok stepRecNum.completed_at) ∧
    (Except.bind (pyGet artObj0 "created_at") (fun v => parseDate v false) =
       Except.ok artRec0.created_at ∧
     Except.bind (pyGet artObj0 "updated_at") (fun v => parseDate v false) =
       Except.ok artRec0.updated_at ∧
     Except.bind (pyGet artObj0 "expires_at") (fun v => parseDate v false) =
       Except.ok artRec0.expires_at) :=
  ⟨c6_timestamp_parsing_amended.1 .jNull false rfl,
   c6_timestamp_parsing_amended.2.1 cfg0 st0 wfObj0 wfRec0 rfl,
   c6_timestamp_parsing_amended.2.2.1 st0 runObj0 runRec0 rfl,
   c6_timestamp_parsing_amended.2.2.2.1 st0 jobObjNoRunner jobRecNoRunner rfl,
   c6_timestamp_parsing_amended.2.2.2.2.1 stepObjNum stepRecNum rfl,
   c6_timestamp_parsing_amended.2.2.2.2.2 artObj0 artRec0 rfl⟩
